import Mathlib

/-!
Verification of the SellLocalMisc operational scripts.

The development shallowly embeds the two script families of the repository:

* `DeleteUser/delete_tenant.py` — the tenant-offboarding workflow.  External
  SaaS calls (Supabase reads/writes, Vercel domain deletion, storage listing
  and removal, auth-user deletion) are modelled as an explicit trace of
  `Event`s; the database/HTTP environment is an abstract `Env` supplying the
  results the script would observe.
* `emails/send.py` and the three campaign `fetch.py` scripts — CSV rows are
  association lists, the template-subject regex and the Python `str.replace`
  placeholder loop are embedded as executable functions on `List Char`.
-/

namespace SellLocal

/-- Python truthiness of an optional string field (`if not x:`):
`None` and the empty string are falsy. -/
def pyFalsy : Option String → Bool
  | none => true
  | some s => s == ""

/-- Python `x or dflt` on an optional string: `None` and `""` fall through
to the default. -/
def pyOr (o : Option String) (dflt : String) : String :=
  match o with
  | none => dflt
  | some s => if s == "" then dflt else s

/-- Resolution mode of an entry of `TABLES_TO_DELETE`
(`"direct"`, `"via_subscribers"`, `"via_pickups"` in the script). -/
inductive Mode
  | direct
  | via_subscribers
  | via_pickups
deriving DecidableEq, Repr

/-- The static dependency-ordered deletion list of `delete_tenant.py`
(lines 54-89), transcribed entry for entry. -/
def TABLES_TO_DELETE : List (String × String × Mode) :=
  [("sell_local_newsletter_sends", "subscriber_id", Mode.via_subscribers),
   ("sell_local_newsletter_subscribers", "tenant_id", Mode.direct),
   ("sell_local_pickup_products", "pickup_id", Mode.via_pickups),
   ("sell_local_pending_orders", "tenant_id", Mode.direct),
   ("sell_local_orders", "tenant_id", Mode.direct),
   ("sell_local_pickups", "tenant_id", Mode.direct),
   ("sell_local_recipe_purchases", "tenant_id", Mode.direct),
   ("sell_local_recipes", "tenant_id", Mode.direct),
   ("sell_local_menu_inventory", "tenant_id", Mode.direct),
   ("sell_local_menu_schedule", "tenant_id", Mode.direct),
   ("sell_local_categories", "tenant_id", Mode.direct),
   ("sell_local_products", "tenant_id", Mode.direct),
   ("sell_local_settings", "tenant_id", Mode.direct),
   ("sell_local_store_settings", "tenant_id", Mode.direct),
   ("sell_local_affiliate_links", "tenant_id", Mode.direct),
   ("sell_local_social_links", "tenant_id", Mode.direct),
   ("sell_local_hero_content", "tenant_id", Mode.direct),
   ("sell_local_about_content", "tenant_id", Mode.direct),
   ("sell_local_branding", "tenant_id", Mode.direct),
   ("sell_local_site_theme", "tenant_id", Mode.direct),
   ("sell_local_notification_banner", "tenant_id", Mode.direct),
   ("sell_local_audit_log", "tenant_id", Mode.direct),
   ("sell_local_tenants", "id", Mode.direct)]

/-- A tenant row as read from `sell_local_tenants`; every field except the
primary key may be missing (`tenant.get(...)` in the script). -/
structure Tenant where
  id : String
  slug : Option String := none
  name : Option String := none
  owner_email : Option String := none
  user_id : Option String := none
  domain : Option String := none
  stripe_customer_id : Option String := none
  stripe_subscription_id : Option String := none
  stripe_connect_account_id : Option String := none
  subscription_status : Option String := none
  created_at : Option String := none
deriving DecidableEq, Repr

/-- One external call issued by the deletion workflow.  The first five
constructors are reads; the rest are writes/deletes. -/
inductive Event
  | lookupTenant (email : String)
  | selectCount (table column value : String)
  | selectCountIn (table column : String) (values : List String)
  | selectIds (table column value : String)
  | storageList (bucket pfx : String)
  | insertRecord (table : String)
  | deleteEq (table column value : String)
  | deleteIn (table column : String) (values : List String)
  | vercelDelete (domain : String)
  | storageRemove (bucket : String) (paths : List String)
  | authDeleteUser (userId : String)
deriving DecidableEq, Repr

/-- Whether an event is a write/delete call (as opposed to a read). -/
def Event.isWrite : Event → Bool
  | .insertRecord _ => true
  | .deleteEq _ _ _ => true
  | .deleteIn _ _ _ => true
  | .vercelDelete _ => true
  | .storageRemove _ _ => true
  | .authDeleteUser _ => true
  | _ => false

/-- Abstract view of the database contents the script's read calls observe. -/
structure DB where
  count : String → String → String → Nat
  countIn : String → String → List String → Nat
  ids : String → String → String → List String

/-- The external environment of one run: database contents, tenant rows
returned by the owner-email lookup, storage listing results (`none` models a
listing exception), whether the archival insert succeeds, the HTTP status of
the Vercel domain deletion, the Vercel credentials, and the interactive
confirmation input. -/
structure Env where
  db : DB
  tenants : String → List Tenant
  storageFiles : String → String → Option (List (Option String))
  insertOk : Bool
  vercelStatus : Nat
  vercelToken : String
  vercelProjectId : String
  confirmInput : String

/-- Step 1 (`lookup_tenant`): select tenants by owner email; the first row is
used if any (`resp.data[0]`). -/
def lookup_tenant (env : Env) (email : String) : List Event × Option Tenant :=
  ([Event.lookupTenant email], (env.tenants email).head?)

/-- Step 2 (`archive_tenant`): in dry-run mode only report; otherwise insert
one retention record.  The Boolean is `false` when the insert raises, in
which case the exception propagates (there is no `try` in the script). -/
def archive_tenant (env : Env) (dry_run : Bool) : List Event × Bool :=
  if dry_run then ([], true)
  else ([Event.insertRecord "sell_local_deleted_tenants"], env.insertOk)

/-- Outcome of the Vercel domain-removal step, matching the script's
branches and log lines. -/
inductive DomainOutcome
  | noDomain
  | notConfigured
  | dryRun
  | removed
  | alreadyGone
  | failed
deriving DecidableEq, Repr

/-- Only a non-2xx, non-404 response is logged as a failure. -/
def DomainOutcome.isFailure : DomainOutcome → Bool
  | .failed => true
  | _ => false

/-- Step 3 (`remove_vercel_domain`): no-op without a domain or without
credentials; in dry-run mode only report; otherwise one DELETE request whose
status 200/204 means removed, 404 means already gone, anything else is a
logged failure (never an exception). -/
def remove_vercel_domain (env : Env) (tenant : Tenant) (dry_run : Bool) :
    List Event × DomainOutcome :=
  if pyFalsy tenant.domain then ([], DomainOutcome.noDomain)
  else if env.vercelToken == "" || env.vercelProjectId == "" then
    ([], DomainOutcome.notConfigured)
  else if dry_run then ([], DomainOutcome.dryRun)
  else
    ([Event.vercelDelete (tenant.domain.getD "")],
      if env.vercelStatus == 200 || env.vercelStatus == 204 then DomainOutcome.removed
      else if env.vercelStatus == 404 then DomainOutcome.alreadyGone
      else DomainOutcome.failed)

/-- Step 4 (`delete_storage_files`): list `images/gallery/<tenant-id>`; a
listing exception or an empty listing only logs; otherwise the non-empty
file names are joined into paths and, outside dry-run, removed in one batch
call (whose own exception is caught). -/
def delete_storage_files (env : Env) (tenant : Tenant) (dry_run : Bool) : List Event :=
  let pfx := "gallery/" ++ tenant.id
  let bucket := "images"
  match env.storageFiles bucket pfx with
  | none => [Event.storageList bucket pfx]
  | some files =>
    if files.isEmpty then [Event.storageList bucket pfx]
    else
      let paths := files.filterMap fun f =>
        if pyFalsy f then none else some (pfx ++ "/" ++ f.getD "")
      if dry_run then [Event.storageList bucket pfx]
      else [Event.storageList bucket pfx, Event.storageRemove bucket paths]

/-- `count_rows`: an exact-count select on `column = value`. -/
def count_rows (db : DB) (table column value : String) : List Event × Nat :=
  ([Event.selectCount table column value], db.count table column value)

/-- `count_rows_in`: returns 0 without issuing any call when the value list
is empty; otherwise an exact-count select on `column in values`. -/
def count_rows_in (db : DB) (table column : String) (values : List String) :
    List Event × Nat :=
  if values.isEmpty then ([], 0)
  else ([Event.selectCountIn table column values], db.countIn table column values)

/-- `_get_ids`: select the `id`s of rows with `column = value`. -/
def get_ids (db : DB) (table column value : String) : List Event × List String :=
  ([Event.selectIds table column value], db.ids table column value)

/-- `_delete_rows`: a bulk delete by equality for `direct` mode, a bulk
delete by membership for the `via_*` modes, skipped when the id list is
empty. -/
def delete_rows (table column : String) (mode : Mode) (value : String)
    (values : List String) : List Event :=
  match mode with
  | Mode.direct => [Event.deleteEq table column value]
  | Mode.via_subscribers => if values.isEmpty then [] else [Event.deleteIn table column values]
  | Mode.via_pickups => if values.isEmpty then [] else [Event.deleteIn table column values]

/-- Body of the `for table, column, mode in TABLES_TO_DELETE` loop: count the
matching rows under the entry's mode, skip on zero, report in dry-run mode,
otherwise delete. -/
def tableChunk (db : DB) (tid : String) (subscriber_ids pickup_ids : List String)
    (dry_run : Bool) (entry : String × String × Mode) : List Event :=
  let table := entry.1
  let column := entry.2.1
  let mode := entry.2.2
  let cr : List Event × Nat :=
    match mode with
    | Mode.direct => count_rows db table column tid
    | Mode.via_subscribers => count_rows_in db table column subscriber_ids
    | Mode.via_pickups => count_rows_in db table column pickup_ids
  if cr.2 = 0 then cr.1
  else if dry_run then cr.1
  else cr.1 ++ delete_rows table column mode tid
    (match mode with
     | Mode.direct => []
     | Mode.via_subscribers => subscriber_ids
     | Mode.via_pickups => pickup_ids)

/-- Step 5 (`delete_database_records`): pre-fetch the subscriber and pickup
ids, then process `TABLES_TO_DELETE` in order. -/
def delete_database_records (env : Env) (tenant : Tenant) (dry_run : Bool) : List Event :=
  let tid := tenant.id
  let sres := get_ids env.db "sell_local_newsletter_subscribers" "tenant_id" tid
  let pres := get_ids env.db "sell_local_pickups" "tenant_id" tid
  sres.1 ++ pres.1 ++
    TABLES_TO_DELETE.flatMap (tableChunk env.db tid sres.2 pres.2 dry_run)

/-- Step 6 (`delete_auth_user`): no-op without a `user_id`; in dry-run mode
only report; otherwise one admin delete call whose exception is caught. -/
def delete_auth_user (tenant : Tenant) (dry_run : Bool) : List Event :=
  if pyFalsy tenant.user_id then []
  else if dry_run then []
  else [Event.authDeleteUser (tenant.user_id.getD "")]

/-- The five-step body of `main` after the confirmation gate.  The Boolean is
`false` when the archival insert raised, aborting the remaining steps. -/
def run_deletion (env : Env) (tenant : Tenant) (dry_run : Bool) : List Event × Bool :=
  let a := archive_tenant env dry_run
  if a.2 then
    (a.1 ++ (remove_vercel_domain env tenant dry_run).1
        ++ delete_storage_files env tenant dry_run
        ++ delete_database_records env tenant dry_run
        ++ delete_auth_user tenant dry_run, true)
  else (a.1, false)

/-- Process outcome of `main`: `sys.exit(1)` on a missing tenant,
`sys.exit(0)` on a refused confirmation, an uncaught exception from the
archival insert, or normal completion. -/
inductive MainResult
  | exitNonZero
  | abortedZero
  | raisedError
  | completed
deriving DecidableEq, Repr

/-- `main`: look the tenant up by email (exit 1 when none matches), prompt
for the literal `DELETE` unless `--force` or `--dry-run` is given, then run
the five steps. -/
def main_run (env : Env) (email : String) (dry_run force : Bool) :
    List Event × MainResult :=
  let lk := lookup_tenant env email
  match lk.2 with
  | none => (lk.1, MainResult.exitNonZero)
  | some tenant =>
    if !force && !dry_run && env.confirmInput ≠ "DELETE" then
      (lk.1, MainResult.abortedZero)
    else
      let r := run_deletion env tenant dry_run
      (lk.1 ++ r.1, if r.2 then MainResult.completed else MainResult.raisedError)

/-! ## Email campaign scripts (`emails/send.py` and the campaign `fetch.py` scripts) -/

/-- Python's `\s` on ASCII text: space, tab, newline, carriage return,
vertical tab, form feed. -/
def isPySpace (c : Char) : Bool :=
  c == ' ' || c == '\t' || c == '\n' || c == '\r' || c == '\x0b' || c == '\x0c'

/-- Match a literal character sequence at the front of a list, returning the
remainder on success. -/
def dropLit : List Char → List Char → Option (List Char)
  | [], l => some l
  | _ :: _, [] => none
  | p :: ps, c :: cs => if p == c then dropLit ps cs else none

/-- Python `str.strip()`: remove leading and trailing whitespace. -/
def pyStrip (s : String) : String :=
  String.mk (((s.data.dropWhile isPySpace).reverse.dropWhile isPySpace).reverse)

/-- One step-bounded pass of Python `str.replace`: scan left to right,
replacing each non-overlapping occurrence of `pat`.  The fuel only serves
termination; `pyReplace` supplies enough for the scan to finish. -/
def replaceAllFuel : Nat → List Char → List Char → List Char → List Char
  | 0, _, _, l => l
  | _, _, _, [] => []
  | n + 1, pat, rep, c :: rest =>
    match pat, dropLit pat (c :: rest) with
    | _ :: _, some rest2 => rep ++ replaceAllFuel n pat rep rest2
    | _, _ => c :: replaceAllFuel n pat rep rest

/-- Python `s.replace(pat, rep)` for a non-empty pattern. -/
def pyReplace (s pat rep : String) : String :=
  String.mk (replaceAllFuel (s.data.length + 1) pat.data rep.data s.data)

/-- A CSV row as produced by `csv.DictReader`: column/value pairs in header
order; a value is `none` when the reader filled a missing trailing field. -/
def Row : Type := List (String × Option String)

/-- Dictionary lookup `row.get(key)` on a CSV row. -/
def rowGet (r : Row) (k : String) : Option String :=
  (List.find? (fun kv => kv.1 == k) r).bind (fun kv => kv.2)

/-- `load_contacts`: each row's `email` value is stripped in place. -/
def strip_email (r : Row) : Row :=
  List.map (fun kv : String × Option String =>
    if kv.1 == "email" then (kv.1, some (pyStrip (kv.2.getD ""))) else kv) r

/-- The placeholder loop of `send_campaign` (lines 128-130): for each
column/value pair of the row, in order, replace every occurrence of
`\x7b\x7bkey\x7d\x7d` in the HTML by the value (`value or ""`). -/
def renderRow (template : String) (r : Row) : String :=
  List.foldl
    (fun (html : String) (kv : String × Option String) =>
      pyReplace html ("\x7b\x7b" ++ kv.1 ++ "\x7d\x7d") (kv.2.getD ""))
    template r

/-- Trailing part `\s*-->` of the subject regex.  `-->` starts with a
non-whitespace character, so the greedy `\s*` is forced to the full
whitespace run. -/
def matchCloseTail (l : List Char) : Option (List Char) :=
  dropLit "-->".data (l.dropWhile isPySpace)

/-- The lazy group `(.+?)` of the subject regex: grow the dot-run one
character at a time (never across a newline) until `\s*-->` matches the
remainder; returns the group and the remainder after `-->`. -/
def tryCore : List Char → List Char → Option (List Char × List Char)
  | _, [] => none
  | acc, c :: rest =>
    if c == '\n' then none
    else
      match matchCloseTail rest with
      | some rest2 => some ((c :: acc).reverse, rest2)
      | none => tryCore (c :: acc) rest

/-- The greedy leading `\s*` of the subject regex: try the longest
whitespace run first, backtracking one character at a time. -/
def tryFromW1 : Nat → List Char → Option (List Char × List Char)
  | 0, l => tryCore [] l
  | k + 1, l =>
    match tryCore [] (l.drop (k + 1)) with
    | some r => some r
    | none => tryFromW1 k l

/-- `load_template` (lines 60-68): `re.match` of
`<!--subject:\s*(.+?)\s*-->\n?` against the template text; `none` models the
`sys.exit(1)` on a missing subject marker, otherwise the subject group and
the HTML body after the match are returned. -/
def load_template (content : String) : Option (String × String) :=
  match dropLit "<!--subject:".data content.data with
  | none => none
  | some rest =>
    match tryFromW1 (rest.takeWhile isPySpace).length rest with
    | none => none
    | some (core, rest2) =>
      let rest3 := match rest2 with
        | '\n' :: t => t
        | t => t
      some (String.mk core, String.mk rest3)

/-- One email handed to the Resend API. -/
structure EmailSend where
  toAddr : String
  subject : String
  html : String
deriving DecidableEq, Repr

/-- `send_campaign` after the path checks: load the contacts, load the
template (aborting with exit 1 on a missing subject marker, before any
send), then send one rendered email per contact — or none in dry-run
mode. -/
def send_campaign (contacts : List Row) (templateContent : String) (dry_run : Bool) :
    Option (List EmailSend) :=
  let loaded := List.map strip_email contacts
  match load_template templateContent with
  | none => none
  | some (subject, htmlT) =>
    some (if dry_run then []
      else List.map (fun c =>
        { toAddr := (rowGet c "email").getD ""
          subject := subject
          html := renderRow htmlT c }) loaded)

/-- A tenant row as selected by the campaign fetch scripts. -/
structure FetchedTenant where
  owner_email : String
  name : String
  slug : String
  domain : Option String := none
  subscription_status : String := ""
  subscription_ends_at : String := ""
deriving DecidableEq, Repr

/-- `write_csv` of `campaigns/free-tier-launch/fetch.py` (lines 51-63): a
missing or empty domain is synthesized as `<slug>.selllocal.app`. -/
def freeTierLaunch_row (t : FetchedTenant) : List (String × String) :=
  let domain := pyOr t.domain (t.slug ++ ".selllocal.app")
  [("email", t.owner_email), ("name", t.name), ("slug", t.slug), ("domain", domain)]

/-- `write_csv` of `campaigns/expired-store/fetch.py` (lines 47-60): a
missing domain becomes the empty string. -/
def expiredStore_row (t : FetchedTenant) : List (String × String) :=
  [("email", t.owner_email), ("name", t.name), ("slug", t.slug),
   ("domain", pyOr t.domain ""), ("subscription_status", t.subscription_status),
   ("subscription_ends_at", t.subscription_ends_at)]

/-- `write_csv` of `campaigns/new-dashboard/fetch.py`: a missing domain
becomes the empty string. -/
def newDashboard_row (t : FetchedTenant) : List (String × String) :=
  [("email", t.owner_email), ("name", t.name), ("slug", t.slug),
   ("domain", pyOr t.domain ""), ("subscription_status", t.subscription_status)]

/-- Value of a column in a written CSV row. -/
def csvGet (row : List (String × String)) (k : String) : Option String :=
  (List.find? (fun kv => kv.1 == k) row).map (fun kv => kv.2)

/-! ## Concrete environments used to instantiate the theorems -/

/-- A database in which every table holds one matching row. -/
def dbOnes : DB :=
  { count := fun _ _ _ => 1, countIn := fun _ _ _ => 1, ids := fun _ _ _ => ["i1"] }

/-- A database in which no table holds a matching row. -/
def dbEmpty : DB :=
  { count := fun _ _ _ => 0, countIn := fun _ _ _ => 0, ids := fun _ _ _ => [] }

/-- A fully-populated tenant row. -/
def tenant0 : Tenant :=
  { id := "t1", slug := some "al", name := some "Al Store",
    owner_email := some "a@b.c", user_id := some "u1",
    domain := some "d.example.com", stripe_customer_id := some "cus_1",
    stripe_subscription_id := some "sub_1",
    stripe_connect_account_id := some "acct_1",
    subscription_status := some "active", created_at := some "2024-01-01" }

/-- A healthy environment containing `tenant0` and two gallery files. -/
def env0 : Env :=
  { db := dbOnes,
    tenants := fun e => if e == "a@b.c" then [tenant0] else [],
    storageFiles := fun _ _ => some [some "f1.png", some "f2.png"],
    insertOk := true, vercelStatus := 200,
    vercelToken := "tok", vercelProjectId := "prj", confirmInput := "DELETE" }

/-! ## Helper lemmas -/

/-- A falsy optional string falls through `pyOr` to the default. -/
theorem pyOr_of_falsy {o : Option String} {d : String} (h : pyFalsy o = true) :
    pyOr o d = d := by
  cases o with
  | none => rfl
  | some s => simp only [pyFalsy] at h; simp [pyOr, h]

/-- A truthy optional string wins over the `pyOr` default. -/
theorem pyOr_of_truthy {o : Option String} {d : String} (h : pyFalsy o = false) :
    pyOr o d = o.getD "" := by
  cases o with
  | none => simp [pyFalsy] at h
  | some s => simp only [pyFalsy] at h; simp [pyOr, h]

/-- The dry-run Vercel step issues no call at all. -/
theorem remove_vercel_domain_dry (env : Env) (tenant : Tenant) :
    (remove_vercel_domain env tenant true).1 = [] := by
  unfold remove_vercel_domain
  split_ifs <;> simp_all

/-- The dry-run storage step issues exactly the listing call. -/
theorem delete_storage_files_dry (env : Env) (tenant : Tenant) :
    delete_storage_files env tenant true =
      [Event.storageList "images" ("gallery/" ++ tenant.id)] := by
  rcases h : env.storageFiles "images" ("gallery/" ++ tenant.id) with _ | files <;>
    simp [delete_storage_files, h]

/-- The dry-run auth step issues no call. -/
theorem delete_auth_user_dry (tenant : Tenant) :
    delete_auth_user tenant true = [] := by
  unfold delete_auth_user
  split_ifs <;> simp_all

/-! ## Claim C3 -/

/-- Claim C3: the archival step runs before any destructive step — the first
event of every non-dry-run deletion trace is the retention-record insert —
and if the retention insert fails, the error propagates and aborts the
remaining workflow: the trace then consists of the failed insert alone, with
no domain removal, storage deletion, table deletion, tenant-row deletion or
identity deletion after it. -/
theorem C3_archival_gate (env : Env) (tenant : Tenant) :
    (env.insertOk = false →
      run_deletion env tenant false =
        ([Event.insertRecord "sell_local_deleted_tenants"], false))
    ∧ (run_deletion env tenant false).1.head? =
        some (Event.insertRecord "sell_local_deleted_tenants") := by
  cases h : env.insertOk <;>
    simp [run_deletion, archive_tenant, h]

/-- Closed instance of `C3_archival_gate` at a concrete failing
environment. -/
theorem C3_archival_gate_witness :
    run_deletion { env0 with insertOk := false } tenant0 false =
      ([Event.insertRecord "sell_local_deleted_tenants"], false) :=
  (C3_archival_gate { env0 with insertOk := false } tenant0).1 rfl

/-! ## Claim C7 -/

/-- Claim C7: when the tenant lookup by owner email finds zero matching
tenants, the workflow exits with a non-zero status having issued only the
read-only lookup call (so no side effects at all); when one or more tenants
match, the first match is the tenant the rest of the workflow uses. -/
theorem C7_lookup (env : Env) (email : String) (dry_run force : Bool) :
    (env.tenants email = [] →
      main_run env email dry_run force =
        ([Event.lookupTenant email], MainResult.exitNonZero)
      ∧ ∀ e ∈ (main_run env email dry_run force).1, e.isWrite = false)
    ∧ (∀ t ts, env.tenants email = t :: ts →
        main_run env email dry_run true =
          (Event.lookupTenant email :: (run_deletion env t dry_run).1,
           if (run_deletion env t dry_run).2 then MainResult.completed
           else MainResult.raisedError)) := by
  constructor
  · intro h
    constructor
    · simp [main_run, lookup_tenant, h]
    · intro e he
      simp [main_run, lookup_tenant, h] at he
      simp [he, Event.isWrite]
  · intro t ts h
    simp [main_run, lookup_tenant, h]

/-- Closed instance of `C7_lookup`: a lookup over an empty tenant table
exits non-zero after the lone read, and with `tenant0` present the first
match drives the remaining steps. -/
theorem C7_lookup_witness :
    main_run { env0 with tenants := fun _ => [] } "a@b.c" false true =
      ([Event.lookupTenant "a@b.c"], MainResult.exitNonZero)
    ∧ main_run env0 "a@b.c" false true =
        (Event.lookupTenant "a@b.c" :: (run_deletion env0 tenant0 false).1,
         if (run_deletion env0 tenant0 false).2 then MainResult.completed
         else MainResult.raisedError) :=
  ⟨((C7_lookup { env0 with tenants := fun _ => [] } "a@b.c" false true).1 rfl).1,
   (C7_lookup env0 "a@b.c" false true).2 tenant0 [] (by decide)⟩

/-! ## Claim C9 -/

/-- Claim C9: with neither `--force` nor `--dry-run`, a confirmation input
other than the literal `DELETE` aborts the run with exit status 0, after the
read-only lookup and before the archival step, issuing no write or delete
call to any external system. -/
theorem C9_confirmation (env : Env) (email : String) (t : Tenant)
    (ts : List Tenant) (h : env.tenants email = t :: ts)
    (hc : env.confirmInput ≠ "DELETE") :
    main_run env email false false =
      ([Event.lookupTenant email], MainResult.abortedZero)
    ∧ ∀ e ∈ (main_run env email false false).1, e.isWrite = false := by
  constructor
  · simp [main_run, lookup_tenant, h, hc]
  · intro e he
    simp [main_run, lookup_tenant, h, hc] at he
    simp [he, Event.isWrite]

/-- Closed instance of `C9_confirmation` at a concrete refused prompt. -/
theorem C9_confirmation_witness :
    main_run { env0 with confirmInput := "no" } "a@b.c" false false =
      ([Event.lookupTenant "a@b.c"], MainResult.abortedZero) :=
  (C9_confirmation { env0 with confirmInput := "no" } "a@b.c" tenant0 []
    (by decide) (by decide)).1

/-! ## Claim C8 -/

/-- Claim C8: domain removal is a no-op when the tenant has no domain or the
Vercel credentials are unconfigured; otherwise it issues exactly one
delete-by-domain request, treats a 404 response as success (not a failure),
maps any other non-2xx response to a logged failure — and in every case the
workflow continues: with the archival insert succeeding, the full non-dry
run still performs the storage, database-record and auth-user steps after
the domain step, whatever its outcome. -/
theorem C8_domain_removal (env : Env) (tenant : Tenant) :
    (pyFalsy tenant.domain = true →
      remove_vercel_domain env tenant false = ([], DomainOutcome.noDomain))
    ∧ (pyFalsy tenant.domain = false →
        (env.vercelToken = "" ∨ env.vercelProjectId = "") →
        remove_vercel_domain env tenant false = ([], DomainOutcome.notConfigured))
    ∧ (pyFalsy tenant.domain = false → env.vercelToken ≠ "" →
        env.vercelProjectId ≠ "" →
        (remove_vercel_domain env tenant false).1 =
          [Event.vercelDelete (tenant.domain.getD "")]
        ∧ (env.vercelStatus = 404 →
            (remove_vercel_domain env tenant false).2 = DomainOutcome.alreadyGone
            ∧ DomainOutcome.isFailure (remove_vercel_domain env tenant false).2 = false)
        ∧ (env.vercelStatus ≠ 200 → env.vercelStatus ≠ 204 → env.vercelStatus ≠ 404 →
            (remove_vercel_domain env tenant false).2 = DomainOutcome.failed))
    ∧ (env.insertOk = true →
        run_deletion env tenant false =
          (Event.insertRecord "sell_local_deleted_tenants" ::
            ((remove_vercel_domain env tenant false).1
              ++ delete_storage_files env tenant false
              ++ delete_database_records env tenant false
              ++ delete_auth_user tenant false), true)) := by
  refine ⟨?_, ?_, ?_, ?_⟩
  · intro h
    simp [remove_vercel_domain, h]
  · intro h hcred
    rcases hcred with hc | hc <;> simp [remove_vercel_domain, h, hc]
  · intro h ht hp
    have ht2 : (env.vercelToken == "") = false := by simpa using ht
    have hp2 : (env.vercelProjectId == "") = false := by simpa using hp
    refine ⟨?_, ?_, ?_⟩
    · simp [remove_vercel_domain, h, ht2, hp2]
    · intro h404
      simp [remove_vercel_domain, h, ht2, hp2, h404, DomainOutcome.isFailure]
    · intro h200 h204 h404
      have e200 : (env.vercelStatus == 200) = false := by simpa using h200
      have e204 : (env.vercelStatus == 204) = false := by simpa using h204
      have e404 : (env.vercelStatus == 404) = false := by simpa using h404
      simp [remove_vercel_domain, h, ht2, hp2, e200, e204, e404]
  · intro h
    simp [run_deletion, archive_tenant, h]

/-- Closed instance of `C8_domain_removal` at a concrete environment whose
domain-deletion request is answered with status 500: the step reports a
failure yet the full run still completes. -/
theorem C8_domain_removal_witness :
    (remove_vercel_domain { env0 with vercelStatus := 500 } tenant0 false).1 =
      [Event.vercelDelete "d.example.com"]
    ∧ (remove_vercel_domain { env0 with vercelStatus := 500 } tenant0 false).2 =
        DomainOutcome.failed
    ∧ run_deletion { env0 with vercelStatus := 500 } tenant0 false =
        (Event.insertRecord "sell_local_deleted_tenants" ::
          ((remove_vercel_domain { env0 with vercelStatus := 500 } tenant0 false).1
            ++ delete_storage_files { env0 with vercelStatus := 500 } tenant0 false
            ++ delete_database_records { env0 with vercelStatus := 500 } tenant0 false
            ++ delete_auth_user tenant0 false), true) := by
  have h := C8_domain_removal { env0 with vercelStatus := 500 } tenant0
  have h3 := h.2.2.1 (by decide) (by decide) (by decide)
  exact ⟨h3.1, h3.2.2 (by decide) (by decide) (by decide), h.2.2.2 rfl⟩

/-! ## Claim C1 -/

/-- Table targeted by a database delete event, if any. -/
def deleteTable : Event → Option String
  | Event.deleteEq table _ _ => some table
  | Event.deleteIn table _ _ => some table
  | _ => none

/-- The tables hit by delete calls of a trace, in call order. -/
def tableDeletes (tr : List Event) : List String := tr.filterMap deleteTable

/-- The table names of `TABLES_TO_DELETE`, in list order. -/
def tableOrder : List String := TABLES_TO_DELETE.map (fun e => e.1)

/-- Position of a table in the deletion order. -/
def rnk (s : String) : Nat := tableOrder.indexOf s

/-- The dependency-ordered (child, parent) table pairs named by the claim. -/
def childParentPairs : List (String × String) :=
  [("sell_local_newsletter_sends", "sell_local_newsletter_subscribers"),
   ("sell_local_pickup_products", "sell_local_pickups"),
   ("sell_local_recipe_purchases", "sell_local_recipes"),
   ("sell_local_pickup_products", "sell_local_products"),
   ("sell_local_menu_inventory", "sell_local_products"),
   ("sell_local_categories", "sell_local_products")]

theorem tableDeletes_append (a b : List Event) :
    tableDeletes (a ++ b) = tableDeletes a ++ tableDeletes b :=
  List.filterMap_append a b deleteTable

/-- One loop iteration issues at most one delete call, targeting its own
table. -/
theorem tableChunk_deletes (db : DB) (tid : String)
    (subs picks : List String) (dry : Bool) (entry : String × String × Mode) :
    tableDeletes (tableChunk db tid subs picks dry entry) = []
    ∨ tableDeletes (tableChunk db tid subs picks dry entry) = [entry.1] := by
  rcases entry with ⟨table, column, mode⟩
  cases mode <;> cases dry <;>
    simp [tableChunk, tableDeletes, count_rows, count_rows_in, delete_rows,
      deleteTable] <;>
    split_ifs <;>
    simp [deleteTable]

/-- Across the loop, the delete calls' target tables form an
order-preserving selection from the entry list. -/
theorem flatMap_deletes_sublist (db : DB) (tid : String)
    (subs picks : List String) (dry : Bool) :
    ∀ l : List (String × String × Mode),
      (tableDeletes (l.flatMap (tableChunk db tid subs picks dry))).Sublist
        (l.map (fun e => e.1))
  | [] => by simp [tableDeletes]
  | e :: t => by
    rw [List.flatMap_cons, tableDeletes_append, List.map_cons]
    rcases tableChunk_deletes db tid subs picks dry e with h | h <;> rw [h]
    · exact (flatMap_deletes_sublist db tid subs picks dry t).cons _
    · exact (flatMap_deletes_sublist db tid subs picks dry t).cons₂ _

/-- Over a whole `delete_database_records` trace, the delete calls' tables
are an order-preserving selection from `TABLES_TO_DELETE`. -/
theorem ddr_deletes_sublist (env : Env) (tenant : Tenant) (dry : Bool) :
    (tableDeletes (delete_database_records env tenant dry)).Sublist tableOrder := by
  unfold delete_database_records
  rw [tableDeletes_append, tableDeletes_append]
  have h1 : tableDeletes (get_ids env.db "sell_local_newsletter_subscribers"
      "tenant_id" tenant.id).1 = [] := rfl
  have h2 : tableDeletes (get_ids env.db "sell_local_pickups"
      "tenant_id" tenant.id).1 = [] := rfl
  rw [h1, h2, List.nil_append, List.nil_append]
  exact flatMap_deletes_sublist env.db tenant.id _ _ dry TABLES_TO_DELETE

/-- Claim C1: in the non-dry deletion trace, for every dependency-ordered
(child, parent) pair of the fixed list — newsletter-sends before
subscribers, pickup-products before pickups, recipe-purchases before
recipes, pickup-products/menu-inventory/categories before products — any
delete call against the parent table comes strictly after any delete call
against the child table, and a delete call against `sell_local_tenants` can
only be the last delete call of the trace. -/
theorem C1_deletion_order (env : Env) (tenant : Tenant) :
    (∀ cp ∈ childParentPairs,
      ∀ i j : Fin (tableDeletes (delete_database_records env tenant false)).length,
        (tableDeletes (delete_database_records env tenant false)).get i = cp.2 →
        (tableDeletes (delete_database_records env tenant false)).get j = cp.1 →
        (j : Nat) < (i : Nat))
    ∧ (∀ i : Fin (tableDeletes (delete_database_records env tenant false)).length,
        (tableDeletes (delete_database_records env tenant false)).get i =
          "sell_local_tenants" →
        (i : Nat) + 1 =
          (tableDeletes (delete_database_records env tenant false)).length) := by
  have hsub := ddr_deletes_sublist env tenant false
  have hpw : tableOrder.Pairwise (fun a b => rnk a < rnk b) := by decide
  have hAll : ∀ x ∈ tableOrder, rnk x ≤ 22 := by decide
  have hPairs : ∀ cp ∈ childParentPairs, rnk cp.1 < rnk cp.2 := by decide
  have hds := hpw.sublist hsub
  have hget := List.pairwise_iff_get.mp hds
  constructor
  · intro cp hcp i j hi hj
    have hr := hPairs cp hcp
    rcases Nat.lt_trichotomy (i : Nat) (j : Nat) with h | h | h
    · exfalso
      have := hget i j h
      rw [hi, hj] at this
      omega
    · exfalso
      have hij : i = j := Fin.ext h
      rw [hij, hj] at hi
      rw [hi] at hr
      omega
    · exact h
  · intro i hi
    by_contra hne
    have hlt : (i : Nat) + 1 <
        (tableDeletes (delete_database_records env tenant false)).length := by
      omega
    have := hget i ⟨(i : Nat) + 1, hlt⟩ (Nat.lt_succ_self _)
    rw [hi] at this
    have h22 : rnk "sell_local_tenants" = 22 := by decide
    have hle := hAll _ (hsub.subset (List.get_mem _ _ hlt))
    omega

/-- Closed instance of `C1_deletion_order` in an environment where every
table holds rows: the newsletter-sends delete (position 0) precedes the
subscribers delete (position 1), and the tenant-row delete sits at the final
position 22 of 23. -/
theorem C1_deletion_order_witness : (0 : Nat) < 1 ∧ (22 : Nat) + 1 = 23 := by
  have h1 := (C1_deletion_order env0 tenant0).1
    ("sell_local_newsletter_sends", "sell_local_newsletter_subscribers")
    (by decide) ⟨1, by decide⟩ ⟨0, by decide⟩ (by decide) (by decide)
  have h2 := (C1_deletion_order env0 tenant0).2 ⟨22, by decide⟩ (by decide)
  exact ⟨h1, h2⟩

/-! ## Claim C2 -/

/-- The non-dry Vercel step contributes no read events. -/
theorem remove_vercel_domain_filter (env : Env) (tenant : Tenant) :
    (remove_vercel_domain env tenant false).1.filter (fun e => !e.isWrite) = [] := by
  unfold remove_vercel_domain
  split_ifs <;> simp [Event.isWrite]

/-- Dropping the write events of the non-dry storage step leaves exactly the
dry-run storage step. -/
theorem delete_storage_files_filter (env : Env) (tenant : Tenant) :
    (delete_storage_files env tenant false).filter (fun e => !e.isWrite) =
      delete_storage_files env tenant true := by
  rw [delete_storage_files_dry]
  rcases h : env.storageFiles "images" ("gallery/" ++ tenant.id) with _ | files <;>
    simp [delete_storage_files, h, Event.isWrite]
  split_ifs <;> simp [Event.isWrite]

/-- Dropping the write events of a non-dry loop iteration leaves exactly the
dry-run iteration. -/
theorem tableChunk_filter (db : DB) (tid : String) (subs picks : List String)
    (entry : String × String × Mode) :
    (tableChunk db tid subs picks false entry).filter (fun e => !e.isWrite) =
      tableChunk db tid subs picks true entry := by
  rcases entry with ⟨table, column, mode⟩
  cases mode <;>
    simp [tableChunk, count_rows, count_rows_in, delete_rows] <;>
    split_ifs <;>
    simp [Event.isWrite]

/-- Dropping the write events of the non-dry record-deletion step leaves
exactly the dry-run record-deletion step. -/
theorem delete_database_records_filter (env : Env) (tenant : Tenant) :
    (delete_database_records env tenant false).filter (fun e => !e.isWrite) =
      delete_database_records env tenant true := by
  unfold delete_database_records
  simp only [List.filter_append, List.filter_flatMap, tableChunk_filter]
  simp [get_ids, Event.isWrite]

/-- The non-dry auth step contributes no read events. -/
theorem delete_auth_user_filter (tenant : Tenant) :
    (delete_auth_user tenant false).filter (fun e => !e.isWrite) = [] := by
  unfold delete_auth_user
  split_ifs <;> simp [Event.isWrite]

/-- When the archival insert succeeds, dropping the write events of the
non-dry five-step run leaves exactly the dry-run five-step run. -/
theorem run_deletion_filter (env : Env) (tenant : Tenant)
    (h : env.insertOk = true) :
    (run_deletion env tenant false).1.filter (fun e => !e.isWrite) =
      (run_deletion env tenant true).1 := by
  have h1 : (run_deletion env tenant false).1 =
      Event.insertRecord "sell_local_deleted_tenants" ::
        ((remove_vercel_domain env tenant false).1 ++
          (delete_storage_files env tenant false ++
            (delete_database_records env tenant false ++
              delete_auth_user tenant false))) := by
    simp [run_deletion, archive_tenant, h]
  have h2 : (run_deletion env tenant true).1 =
      (remove_vercel_domain env tenant true).1 ++
        (delete_storage_files env tenant true ++
          (delete_database_records env tenant true ++
            delete_auth_user tenant true)) := by
    simp [run_deletion, archive_tenant]
  rw [h1, h2, List.filter_cons, List.filter_append, List.filter_append,
    List.filter_append, remove_vercel_domain_filter,
    delete_storage_files_filter, delete_database_records_filter,
    delete_auth_user_filter]
  simp [Event.isWrite, remove_vercel_domain_dry, delete_auth_user_dry]

/-- `main` over a non-empty lookup result proceeds with the first match
(`--force` set, so no prompt). -/
theorem main_run_cons (env : Env) (email : String) (dry_run : Bool)
    (t : Tenant) (ts : List Tenant) (ht : env.tenants email = t :: ts) :
    main_run env email dry_run true =
      (Event.lookupTenant email :: (run_deletion env t dry_run).1,
       if (run_deletion env t dry_run).2 then MainResult.completed
       else MainResult.raisedError) := by
  simp [main_run, lookup_tenant, ht]

/-- Dry-run `main` over a non-empty lookup result skips the prompt whatever
`force` is. -/
theorem main_run_dry_cons (env : Env) (email : String) (force : Bool)
    (t : Tenant) (ts : List Tenant) (ht : env.tenants email = t :: ts) :
    main_run env email true force =
      (Event.lookupTenant email :: (run_deletion env t true).1,
       if (run_deletion env t true).2 then MainResult.completed
       else MainResult.raisedError) := by
  simp [main_run, lookup_tenant, ht]

/-- A dry-run loop iteration contains only reads. -/
theorem tableChunk_dry_reads (db : DB) (tid : String) (subs picks : List String)
    (entry : String × String × Mode) :
    ∀ e ∈ tableChunk db tid subs picks true entry, e.isWrite = false := by
  rcases entry with ⟨table, column, mode⟩
  intro e he
  cases mode <;>
    simp [tableChunk, count_rows, count_rows_in] at he <;>
    (try split_ifs at he) <;>
    simp_all [Event.isWrite]

/-- The whole dry-run five-step trace contains only reads. -/
theorem run_deletion_dry_reads (env : Env) (tenant : Tenant) :
    ∀ e ∈ (run_deletion env tenant true).1, e.isWrite = false := by
  intro e he
  have h2 : (run_deletion env tenant true).1 =
      (remove_vercel_domain env tenant true).1 ++
        (delete_storage_files env tenant true ++
          (delete_database_records env tenant true ++
            delete_auth_user tenant true)) := by
    simp [run_deletion, archive_tenant]
  rw [h2, remove_vercel_domain_dry, delete_storage_files_dry,
    delete_auth_user_dry] at he
  simp only [List.nil_append, List.append_nil, List.singleton_append,
    List.mem_cons] at he
  rcases he with rfl | he
  · rfl
  · unfold delete_database_records at he
    simp only [get_ids, List.mem_append, List.mem_flatMap,
      List.mem_singleton] at he
    rcases he with (rfl | rfl) | ⟨entry, hentry, he⟩
    · rfl
    · rfl
    · exact tableChunk_dry_reads env.db tenant.id _ _ entry e he

/-- Claim C2: with `--dry-run`, the workflow issues zero write or delete
calls to the backend store, the routing service, object storage, or the
identity provider, for every tenant state; and it still issues exactly the
read calls of a real (force-confirmed, successful-archival) run — in
particular the tenant lookup, the subscriber- and pickup-ID fetches and the
storage listing are all present when a tenant matches. -/
theorem C2_dry_run (env : Env) (email : String) (force : Bool) :
    (∀ e ∈ (main_run env email true force).1, e.isWrite = false)
    ∧ (env.insertOk = true →
        (main_run env email true force).1 =
          (main_run env email false true).1.filter (fun e => !e.isWrite))
    ∧ (∀ t ts, env.tenants email = t :: ts →
        Event.lookupTenant email ∈ (main_run env email true force).1
        ∧ Event.selectIds "sell_local_newsletter_subscribers" "tenant_id" t.id ∈
            (main_run env email true force).1
        ∧ Event.selectIds "sell_local_pickups" "tenant_id" t.id ∈
            (main_run env email true force).1
        ∧ Event.storageList "images" ("gallery/" ++ t.id) ∈
            (main_run env email true force).1) := by
  refine ⟨?_, ?_, ?_⟩
  · intro e he
    rcases ht : env.tenants email with _ | ⟨t, ts⟩
    · simp [main_run, lookup_tenant, ht] at he
      simp [he, Event.isWrite]
    · rw [main_run_dry_cons env email force t ts ht] at he
      simp only [List.mem_cons] at he
      rcases he with rfl | he
      · rfl
      · exact run_deletion_dry_reads env t e he
  · intro h
    rcases ht : env.tenants email with _ | ⟨t, ts⟩
    · simp [main_run, lookup_tenant, ht, Event.isWrite]
    · rw [main_run_dry_cons env email force t ts ht,
        main_run_cons env email false t ts ht]
      simp only [List.filter_cons, run_deletion_filter env t h]
      simp [Event.isWrite]
  · intro t ts ht
    refine ⟨?_, ?_, ?_, ?_⟩ <;>
      simp [main_run, lookup_tenant, ht, run_deletion, archive_tenant,
        remove_vercel_domain_dry, delete_storage_files_dry,
        delete_auth_user_dry, delete_database_records, get_ids]

/-- Closed instance of `C2_dry_run` at the concrete populated environment:
the dry trace equals the read part of the real trace and contains the
storage listing for `tenant0`. -/
theorem C2_dry_run_witness :
    (main_run env0 "a@b.c" true false).1 =
      (main_run env0 "a@b.c" false true).1.filter (fun e => !e.isWrite)
    ∧ Event.storageList "images" "gallery/t1" ∈ (main_run env0 "a@b.c" true false).1 := by
  have h := C2_dry_run env0 "a@b.c" false
  exact ⟨h.2.1 rfl, (h.2.2 tenant0 [] (by decide)).2.2.2⟩

/-! ## Claim C5 -/

/-- Whether an event is one of the per-table count checks of the
record-deletion loop. -/
def Event.isCountRead : Event → Bool
  | Event.selectCount _ _ _ => true
  | Event.selectCountIn _ _ _ => true
  | _ => false

/-- The backend state after a completed first deletion run: no tenant row
matches any email, no table holds matching rows, no storage file remains. -/
def envPost : Env :=
  { db := dbEmpty, tenants := fun _ => [],
    storageFiles := fun _ _ => some [], insertOk := true, vercelStatus := 404,
    vercelToken := "tok", vercelProjectId := "prj", confirmInput := "DELETE" }

/-- Claim C5 counterexample: after a completed first run the tenant row is
gone, so the second full non-dry run terminates at the lookup with a
non-zero exit and issues no per-table count check at all — it does not, as
the claim states, report zero affected rows for every table via the
zero-count check. -/
theorem C5_counterexample :
    main_run envPost "a@b.c" false true =
      ([Event.lookupTenant "a@b.c"], MainResult.exitNonZero)
    ∧ (main_run envPost "a@b.c" false true).1.all
        (fun e => !(Event.isCountRead e)) = true := by decide

/-- Claim C5 (amended): re-running the full non-dry workflow after a
completed run is idempotent, but through the lookup, not the per-table
zero-count checks: the second run terminates at the tenant lookup with a
not-found, non-zero exit and issues no write or delete call (zero rows are
affected, and neither the table loop nor the identity deletion is reached).
The zero-count skip applies instead when a tenant row survives a partial
run: with every count zero and no subscriber or pickup ids, the
record-deletion step issues only reads. -/
theorem C5_second_run (env : Env) (email : String) :
    (env.tenants email = [] →
      main_run env email false true =
        ([Event.lookupTenant email], MainResult.exitNonZero)
      ∧ ∀ e ∈ (main_run env email false true).1, e.isWrite = false)
    ∧ ((∀ a b c, env.db.count a b c = 0) →
        (∀ a b c, env.db.ids a b c = []) →
        ∀ tenant : Tenant, ∀ e ∈ delete_database_records env tenant false,
          e.isWrite = false) := by
  constructor
  · intro h
    constructor
    · simp [main_run, lookup_tenant, h]
    · intro e he
      simp [main_run, lookup_tenant, h] at he
      simp [he, Event.isWrite]
  · intro hc hid tenant e he
    simp only [delete_database_records, get_ids, hid, List.mem_append,
      List.mem_flatMap] at he
    rcases he with (he | he) | ⟨entry, hentry, he⟩
    · simp_all [Event.isWrite]
    · simp_all [Event.isWrite]
    · rcases entry with ⟨table, column, mode⟩
      cases mode <;>
        simp_all [tableChunk, count_rows, count_rows_in, Event.isWrite]

/-- Closed instance of `C5_second_run` at the post-deletion environment. -/
theorem C5_second_run_witness :
    main_run envPost "a@b.c" false true =
      ([Event.lookupTenant "a@b.c"], MainResult.exitNonZero)
    ∧ (delete_database_records envPost tenant0 false).all
        (fun e => !e.isWrite) = true := by
  refine ⟨((C5_second_run envPost "a@b.c").1 rfl).1, ?_⟩
  rw [List.all_eq_true]
  intro e he
  have h := (C5_second_run envPost "a@b.c").2 (fun _ _ _ => rfl)
    (fun _ _ _ => rfl) tenant0 e he
  simp [h]

/-! ## Claim C4 -/

/-- A template body containing a known and an unknown placeholder. -/
def c4_template : String := "Hi \x7b\x7bname\x7d\x7d!\x7b\x7bmissing\x7d\x7d"

/-- A contact row over the columns email, name, slug. -/
def c4_row : Row := [("email", some "a@b.c"), ("name", some "Alice"), ("slug", some "al")]

/-- A second contact row over the same columns. -/
def c4_row2 : Row := [("email", some "b@c.d"), ("name", some "Bob"), ("slug", some "bo")]

/-- Claim C4 counterexample: for a CSV row with columns email, name, slug,
the placeholder whose field is not a column (`missing`) is NOT replaced by
the empty string — it survives verbatim in the rendered body, so the body
the claim predicts is not the one produced. -/
theorem C4_counterexample :
    renderRow c4_template c4_row = "Hi Alice!\x7b\x7bmissing\x7d\x7d"
    ∧ ¬ renderRow c4_template c4_row = "Hi Alice!" := by decide

/-- Claim C4 (amended): the rendered body substitutes the row's name value
for the name placeholder, but a placeholder whose field is not a column of
the CSV row is left verbatim (unreplaced); the empty string is substituted
only for a column that exists with a missing value. -/
theorem C4_placeholder_rendering :
    renderRow c4_template c4_row = "Hi Alice!\x7b\x7bmissing\x7d\x7d"
    ∧ renderRow c4_template c4_row2 = "Hi Bob!\x7b\x7bmissing\x7d\x7d"
    ∧ renderRow "X\x7b\x7bextra\x7d\x7dY" [("extra", none)] = "XY" := by decide

/-! ## Claim C6 -/

/-- Claim C6: when the template text does not begin with the required
leading subject marker (the regex `<!--subject: ... -->` fails to match),
the sender exits non-zero before attempting any send, for every contact
list and in either mode. -/
theorem C6_missing_subject (contacts : List Row) (content : String)
    (dry_run : Bool) (h : load_template content = none) :
    send_campaign contacts content dry_run = none := by
  simp [send_campaign, h]

/-- Closed instance of `C6_missing_subject` at a concrete marker-less
template. -/
theorem C6_missing_subject_witness :
    send_campaign [c4_row] "<p>no subject marker</p>" false = none :=
  C6_missing_subject [c4_row] "<p>no subject marker</p>" false (by decide)

/-! ## Claim C10 -/

/-- Claim C10: for every fetched tenant whose domain is missing or empty,
the free-tier-launch fetch writes the synthesized `<slug>.selllocal.app`
into the CSV domain column, while the expired-store and new-dashboard
fetches write the empty string; a present non-empty domain is written as-is
by all three. -/
theorem C10_domain_column (t : FetchedTenant) :
    (pyFalsy t.domain = true →
      csvGet (freeTierLaunch_row t) "domain" = some (t.slug ++ ".selllocal.app")
      ∧ csvGet (expiredStore_row t) "domain" = some ""
      ∧ csvGet (newDashboard_row t) "domain" = some "")
    ∧ (pyFalsy t.domain = false →
      csvGet (freeTierLaunch_row t) "domain" = some (t.domain.getD "")
      ∧ csvGet (expiredStore_row t) "domain" = some (t.domain.getD "")
      ∧ csvGet (newDashboard_row t) "domain" = some (t.domain.getD "")) := by
  constructor
  · intro h
    refine ⟨?_, ?_, ?_⟩ <;>
      simp [csvGet, freeTierLaunch_row, expiredStore_row, newDashboard_row,
        pyOr_of_falsy h]
  · intro h
    refine ⟨?_, ?_, ?_⟩ <;>
      simp [csvGet, freeTierLaunch_row, expiredStore_row, newDashboard_row,
        pyOr_of_truthy h]

/-- A fetched tenant without a domain. -/
def fetched0 : FetchedTenant :=
  { owner_email := "a@b.c", name := "Al", slug := "al", domain := none,
    subscription_status := "canceled", subscription_ends_at := "2024-02-01" }

/-- The same tenant with a custom domain. -/
def fetched1 : FetchedTenant := { fetched0 with domain := some "shop.example.com" }

/-- Closed instance of `C10_domain_column` at tenants with and without a
domain. -/
theorem C10_domain_column_witness :
    csvGet (freeTierLaunch_row fetched0) "domain" = some "al.selllocal.app"
    ∧ csvGet (expiredStore_row fetched0) "domain" = some ""
    ∧ csvGet (freeTierLaunch_row fetched1) "domain" = some "shop.example.com" := by
  have h0 := (C10_domain_column fetched0).1 (by decide)
  have h1 := (C10_domain_column fetched1).2 (by decide)
  exact ⟨h0.1, h0.2.1, h1.1⟩

end SellLocal
